import Mathlib

/-!
Verification of the GIoU / IoU loss computation from
`tensorflow_addons/losses/giou_loss.py`.

The source operates elementwise on batches of axis-aligned bounding boxes,
each given by four scalar coordinates `(c0, c1, c2, c3)` understood as
`(ymin, xmin, ymax, xmax)` up to min/max normalization.  We embed the
per-pair arithmetic over the rationals, with TensorFlow's
`tf.math.divide_no_nan` modelled as a guarded division returning 0 on a
zero denominator, and the batch-level `giou_loss` function as a list
computation that can fail with the source's `ValueError` message.
-/

namespace GiouLoss

/-- A bounding box: the four raw coordinates of one row of the input tensor
(`b[:, 0] .. b[:, 3]` in the source). No ordering is assumed. -/
structure Box where
  c0 : ℚ
  c1 : ℚ
  c2 : ℚ
  c3 : ℚ
deriving DecidableEq, Repr

/-- `tf.math.divide_no_nan x y`: `x / y`, but 0 when `y = 0`. -/
def divide_no_nan (x y : ℚ) : ℚ :=
  if y = 0 then 0 else x / y

/-- `b1_ymin = tf.minimum(b1[:, 0], b1[:, 2])`. -/
def box_ymin (b : Box) : ℚ := min b.c0 b.c2

/-- `b1_xmin = tf.minimum(b1[:, 1], b1[:, 3])`. -/
def box_xmin (b : Box) : ℚ := min b.c1 b.c3

/-- `b1_ymax = tf.maximum(b1[:, 0], b1[:, 2])`. -/
def box_ymax (b : Box) : ℚ := max b.c0 b.c2

/-- `b1_xmax = tf.maximum(b1[:, 1], b1[:, 3])`. -/
def box_xmax (b : Box) : ℚ := max b.c1 b.c3

/-- `b1_width = tf.maximum(zero, b1_xmax - b1_xmin)`. -/
def box_width (b : Box) : ℚ := max 0 (box_xmax b - box_xmin b)

/-- `b1_height = tf.maximum(zero, b1_ymax - b1_ymin)`. -/
def box_height (b : Box) : ℚ := max 0 (box_ymax b - box_ymin b)

/-- `b1_area = b1_width * b1_height`. -/
def box_area (b : Box) : ℚ := box_width b * box_height b

/-- `intersect_width = tf.maximum(zero, intersect_xmax - intersect_xmin)`
with `intersect_xmin = tf.maximum(b1_xmin, b2_xmin)` and
`intersect_xmax = tf.minimum(b1_xmax, b2_xmax)`. -/
def intersect_width (b1 b2 : Box) : ℚ :=
  max 0 (min (box_xmax b1) (box_xmax b2) - max (box_xmin b1) (box_xmin b2))

/-- `intersect_height = tf.maximum(zero, intersect_ymax - intersect_ymin)`. -/
def intersect_height (b1 b2 : Box) : ℚ :=
  max 0 (min (box_ymax b1) (box_ymax b2) - max (box_ymin b1) (box_ymin b2))

/-- `intersect_area = intersect_width * intersect_height`. -/
def intersect_area (b1 b2 : Box) : ℚ :=
  intersect_width b1 b2 * intersect_height b1 b2

/-- `union_area = b1_area + b2_area - intersect_area`. -/
def union_area (b1 b2 : Box) : ℚ :=
  box_area b1 + box_area b2 - intersect_area b1 b2

/-- `iou = tf.math.divide_no_nan(intersect_area, union_area)`. -/
def iou_val (b1 b2 : Box) : ℚ :=
  divide_no_nan (intersect_area b1 b2) (union_area b1 b2)

/-- `enclose_width = tf.maximum(zero, enclose_xmax - enclose_xmin)`
with `enclose_xmin = tf.minimum(b1_xmin, b2_xmin)` and
`enclose_xmax = tf.maximum(b1_xmax, b2_xmax)`. -/
def enclose_width (b1 b2 : Box) : ℚ :=
  max 0 (max (box_xmax b1) (box_xmax b2) - min (box_xmin b1) (box_xmin b2))

/-- `enclose_height = tf.maximum(zero, enclose_ymax - enclose_ymin)`. -/
def enclose_height (b1 b2 : Box) : ℚ :=
  max 0 (max (box_ymax b1) (box_ymax b2) - min (box_ymin b1) (box_ymin b2))

/-- `enclose_area = enclose_width * enclose_height`. -/
def enclose_area (b1 b2 : Box) : ℚ :=
  enclose_width b1 b2 * enclose_height b1 b2

/-- `giou = iou - tf.math.divide_no_nan((enclose_area - union_area), enclose_area)`. -/
def giou_val (b1 b2 : Box) : ℚ :=
  iou_val b1 b2 - divide_no_nan (enclose_area b1 b2 - union_area b1 b2) (enclose_area b1 b2)

/-- The elementwise core `do_giou_calculate(b1, b2, mode)`: returns `iou`
when `mode == 'iou'`, otherwise continues and returns `giou`. -/
def do_giou_calculate (b1 b2 : Box) (mode : String) : ℚ :=
  if mode = "iou" then iou_val b1 b2 else giou_val b1 b2

/-- The `ValueError` message raised by `giou_loss` on an unknown mode:
`Value of mode should be 'iou' or 'giou'`. -/
def modeErrorMessage : String :=
  "Value of mode should be \x27iou\x27 or \x27giou\x27"

/-- `giou_loss(y_true, y_pred, mode)`: validates `mode` before any tensor
work, then computes `1 - do_giou_calculate(y_pred, y_true, mode)`
elementwise over the paired batches. The `ValueError` raise is modelled
as `Except.error`; the dtype cast of `y_true` is the identity over ℚ. -/
def giou_loss (y_true y_pred : List Box) (mode : String) : Except String (List ℚ) :=
  if mode ≠ "giou" ∧ mode ≠ "iou" then
    Except.error modeErrorMessage
  else
    Except.ok (List.zipWith (fun t p => 1 - do_giou_calculate p t mode) y_true y_pred)

/-- Corner swap of a box: `(c0, c1, c2, c3) ↦ (c2, c3, c0, c1)`, i.e.
presenting the box as `(ymax, xmax, ymin, xmin)` instead of
`(ymin, xmin, ymax, xmax)`. -/
def corner_swap (b : Box) : Box := ⟨b.c2, b.c3, b.c0, b.c1⟩

end GiouLoss

namespace GiouLoss

/-! ### Lemmas about the guarded division -/

theorem divide_no_nan_zero_num (y : ℚ) : divide_no_nan 0 y = 0 := by
  unfold divide_no_nan
  split <;> simp

theorem divide_no_nan_zero_den (x : ℚ) : divide_no_nan x 0 = 0 := by
  simp [divide_no_nan]

theorem divide_no_nan_nonneg {x y : ℚ} (hx : 0 ≤ x) (hy : 0 ≤ y) :
    0 ≤ divide_no_nan x y := by
  unfold divide_no_nan
  split
  · exact le_refl 0
  · exact div_nonneg hx hy

theorem divide_no_nan_le_one {x y : ℚ} (hx : 0 ≤ x) (hxy : x ≤ y) :
    divide_no_nan x y ≤ 1 := by
  unfold divide_no_nan
  split
  · exact zero_le_one
  · next hy =>
    have hypos : 0 < y := lt_of_le_of_ne (le_trans hx hxy) (Ne.symm hy)
    exact (div_le_one hypos).mpr hxy

theorem divide_no_nan_pos {x y : ℚ} (hx : 0 < x) (hy : 0 < y) :
    0 < divide_no_nan x y := by
  unfold divide_no_nan
  split
  · next h => exact absurd h (ne_of_gt hy)
  · exact div_pos hx hy

/-! ### Lemmas about normalized boxes and their areas -/

theorem box_xmin_le_xmax (b : Box) : box_xmin b ≤ box_xmax b := min_le_max

theorem box_ymin_le_ymax (b : Box) : box_ymin b ≤ box_ymax b := min_le_max

theorem box_width_nonneg (b : Box) : 0 ≤ box_width b := le_max_left 0 _

theorem box_height_nonneg (b : Box) : 0 ≤ box_height b := le_max_left 0 _

theorem box_width_eq (b : Box) : box_width b = box_xmax b - box_xmin b :=
  max_eq_right (sub_nonneg.mpr (box_xmin_le_xmax b))

theorem box_height_eq (b : Box) : box_height b = box_ymax b - box_ymin b :=
  max_eq_right (sub_nonneg.mpr (box_ymin_le_ymax b))

theorem box_area_nonneg (b : Box) : 0 ≤ box_area b :=
  mul_nonneg (box_width_nonneg b) (box_height_nonneg b)

theorem intersect_width_nonneg (b1 b2 : Box) : 0 ≤ intersect_width b1 b2 :=
  le_max_left 0 _

theorem intersect_height_nonneg (b1 b2 : Box) : 0 ≤ intersect_height b1 b2 :=
  le_max_left 0 _

theorem intersect_area_nonneg (b1 b2 : Box) : 0 ≤ intersect_area b1 b2 :=
  mul_nonneg (intersect_width_nonneg b1 b2) (intersect_height_nonneg b1 b2)

theorem intersect_width_le_left (b1 b2 : Box) :
    intersect_width b1 b2 ≤ box_width b1 :=
  max_le_max (le_refl 0)
    (sub_le_sub (min_le_left _ _) (le_max_left _ _))

theorem intersect_width_le_right (b1 b2 : Box) :
    intersect_width b1 b2 ≤ box_width b2 :=
  max_le_max (le_refl 0)
    (sub_le_sub (min_le_right _ _) (le_max_right _ _))

theorem intersect_height_le_left (b1 b2 : Box) :
    intersect_height b1 b2 ≤ box_height b1 :=
  max_le_max (le_refl 0)
    (sub_le_sub (min_le_left _ _) (le_max_left _ _))

theorem intersect_height_le_right (b1 b2 : Box) :
    intersect_height b1 b2 ≤ box_height b2 :=
  max_le_max (le_refl 0)
    (sub_le_sub (min_le_right _ _) (le_max_right _ _))

theorem intersect_area_le_left (b1 b2 : Box) :
    intersect_area b1 b2 ≤ box_area b1 :=
  mul_le_mul (intersect_width_le_left b1 b2) (intersect_height_le_left b1 b2)
    (intersect_height_nonneg b1 b2) (box_width_nonneg b1)

theorem intersect_area_le_right (b1 b2 : Box) :
    intersect_area b1 b2 ≤ box_area b2 :=
  mul_le_mul (intersect_width_le_right b1 b2) (intersect_height_le_right b1 b2)
    (intersect_height_nonneg b1 b2) (box_width_nonneg b2)

theorem union_area_nonneg (b1 b2 : Box) : 0 ≤ union_area b1 b2 := by
  have h := intersect_area_le_right b1 b2
  have h1 := box_area_nonneg b1
  unfold union_area
  linarith

theorem intersect_area_le_union (b1 b2 : Box) :
    intersect_area b1 b2 ≤ union_area b1 b2 := by
  have h1 := intersect_area_le_left b1 b2
  have h2 := intersect_area_le_right b1 b2
  unfold union_area
  linarith

/-! ### Lemmas about the enclosing box -/

theorem enclose_width_nonneg (b1 b2 : Box) : 0 ≤ enclose_width b1 b2 :=
  le_max_left 0 _

theorem enclose_height_nonneg (b1 b2 : Box) : 0 ≤ enclose_height b1 b2 :=
  le_max_left 0 _

theorem enclose_area_nonneg (b1 b2 : Box) : 0 ≤ enclose_area b1 b2 :=
  mul_nonneg (enclose_width_nonneg b1 b2) (enclose_height_nonneg b1 b2)

theorem box_width_le_enclose_left (b1 b2 : Box) :
    box_width b1 ≤ enclose_width b1 b2 :=
  max_le_max (le_refl 0)
    (sub_le_sub (le_max_left _ _) (min_le_left _ _))

theorem box_width_le_enclose_right (b1 b2 : Box) :
    box_width b2 ≤ enclose_width b1 b2 :=
  max_le_max (le_refl 0)
    (sub_le_sub (le_max_right _ _) (min_le_right _ _))

theorem box_height_le_enclose_left (b1 b2 : Box) :
    box_height b1 ≤ enclose_height b1 b2 :=
  max_le_max (le_refl 0)
    (sub_le_sub (le_max_left _ _) (min_le_left _ _))

theorem box_height_le_enclose_right (b1 b2 : Box) :
    box_height b2 ≤ enclose_height b1 b2 :=
  max_le_max (le_refl 0)
    (sub_le_sub (le_max_right _ _) (min_le_right _ _))

theorem enclose_width_eq (b1 b2 : Box) :
    enclose_width b1 b2
      = max (box_xmax b1) (box_xmax b2) - min (box_xmin b1) (box_xmin b2) := by
  refine max_eq_right (sub_nonneg.mpr ?_)
  exact le_trans (min_le_left _ _) (le_trans (box_xmin_le_xmax b1) (le_max_left _ _))

theorem enclose_height_eq (b1 b2 : Box) :
    enclose_height b1 b2
      = max (box_ymax b1) (box_ymax b2) - min (box_ymin b1) (box_ymin b2) := by
  refine max_eq_right (sub_nonneg.mpr ?_)
  exact le_trans (min_le_left _ _) (le_trans (box_ymin_le_ymax b1) (le_max_left _ _))

theorem width_one_dim (b1 b2 : Box) :
    box_width b1 + box_width b2 ≤ enclose_width b1 b2 + intersect_width b1 b2 := by
  have hM : min (box_xmax b1) (box_xmax b2) + max (box_xmax b1) (box_xmax b2)
      = box_xmax b1 + box_xmax b2 := min_add_max _ _
  have hm : min (box_xmin b1) (box_xmin b2) + max (box_xmin b1) (box_xmin b2)
      = box_xmin b1 + box_xmin b2 := min_add_max _ _
  have hI : min (box_xmax b1) (box_xmax b2) - max (box_xmin b1) (box_xmin b2)
      ≤ intersect_width b1 b2 := le_max_right 0 _
  rw [box_width_eq, box_width_eq, enclose_width_eq]
  linarith

theorem height_one_dim (b1 b2 : Box) :
    box_height b1 + box_height b2 ≤ enclose_height b1 b2 + intersect_height b1 b2 := by
  have hM : min (box_ymax b1) (box_ymax b2) + max (box_ymax b1) (box_ymax b2)
      = box_ymax b1 + box_ymax b2 := min_add_max _ _
  have hm : min (box_ymin b1) (box_ymin b2) + max (box_ymin b1) (box_ymin b2)
      = box_ymin b1 + box_ymin b2 := min_add_max _ _
  have hI : min (box_ymax b1) (box_ymax b2) - max (box_ymin b1) (box_ymin b2)
      ≤ intersect_height b1 b2 := le_max_right 0 _
  rw [box_height_eq, box_height_eq, enclose_height_eq]
  linarith

theorem union_area_le_enclose (b1 b2 : Box) :
    union_area b1 b2 ≤ enclose_area b1 b2 := by
  have hWA := box_width_nonneg b1
  have hWB := box_width_nonneg b2
  have hHA := box_height_nonneg b1
  have hHB := box_height_nonneg b2
  have hWI0 := intersect_width_nonneg b1 b2
  have hHI0 := intersect_height_nonneg b1 b2
  have hWIA := intersect_width_le_left b1 b2
  have hWIB := intersect_width_le_right b1 b2
  have hHIA := intersect_height_le_left b1 b2
  have hHIB := intersect_height_le_right b1 b2
  have hWEA := box_width_le_enclose_left b1 b2
  have hHEA := box_height_le_enclose_left b1 b2
  have hW1d := width_one_dim b1 b2
  have hH1d := height_one_dim b1 b2
  have k1 : 0 ≤ (box_width b1 - intersect_width b1 b2)
      * (box_height b2 - intersect_height b1 b2) :=
    mul_nonneg (sub_nonneg.mpr hWIA) (sub_nonneg.mpr hHIB)
  have k2 : 0 ≤ (box_width b2 - intersect_width b1 b2)
      * (box_height b1 - intersect_height b1 b2) :=
    mul_nonneg (sub_nonneg.mpr hWIB) (sub_nonneg.mpr hHIA)
  have k3 : (box_width b1 + box_width b2 - intersect_width b1 b2)
      * (box_height b1 + box_height b2 - intersect_height b1 b2)
      ≤ enclose_width b1 b2 * enclose_height b1 b2 :=
    mul_le_mul (by linarith) (by linarith) (by linarith) (by linarith)
  unfold union_area enclose_area box_area intersect_area at *
  nlinarith [k1, k2, k3]

end GiouLoss

namespace GiouLoss

theorem do_giou_calculate_iou_mode (b1 b2 : Box) :
    do_giou_calculate b1 b2 ("iou") = iou_val b1 b2 := if_pos rfl

theorem do_giou_calculate_giou_mode (b1 b2 : Box) :
    do_giou_calculate b1 b2 ("giou") = giou_val b1 b2 := if_neg (by decide)

/-- C1: on the worked example batches `boxes1 = [[4,3,7,5],[5,6,10,7]]`
and `boxes2 = [[3,4,6,8],[14,14,15,15]]` with mode `giou`, `giou_loss`
returns the per-pair losses `[43/40, 29/15]` (= `[1.075, 1.9333...]`),
each equal to `1` minus the giou score of its pair. -/
theorem giou_loss_worked_example :
    giou_loss [⟨4, 3, 7, 5⟩, ⟨5, 6, 10, 7⟩] [⟨3, 4, 6, 8⟩, ⟨14, 14, 15, 15⟩] ("giou")
      = Except.ok [43 / 40, 29 / 15] ∧
    (43 : ℚ) / 40 = 1 - giou_val ⟨3, 4, 6, 8⟩ ⟨4, 3, 7, 5⟩ ∧
    (29 : ℚ) / 15 = 1 - giou_val ⟨14, 14, 15, 15⟩ ⟨5, 6, 10, 7⟩ := by
  refine ⟨?_, ?_, ?_⟩ <;>
    norm_num [giou_loss, do_giou_calculate_giou_mode, giou_val, iou_val, divide_no_nan,
      enclose_area, enclose_width, enclose_height, union_area, intersect_area,
      intersect_width, intersect_height, box_area, box_width, box_height,
      box_ymin, box_xmin, box_ymax, box_xmax]

/-- C2: for every pair of boxes, the giou score is at most the iou score,
and the two are equal whenever the enclosing-box area equals the union
area. -/
theorem giou_le_iou (b1 b2 : Box) :
    giou_val b1 b2 ≤ iou_val b1 b2 ∧
    (enclose_area b1 b2 = union_area b1 b2 → giou_val b1 b2 = iou_val b1 b2) := by
  constructor
  · have hpen : 0 ≤ divide_no_nan (enclose_area b1 b2 - union_area b1 b2) (enclose_area b1 b2) :=
      divide_no_nan_nonneg (sub_nonneg.mpr (union_area_le_enclose b1 b2))
        (enclose_area_nonneg b1 b2)
    unfold giou_val
    linarith
  · intro h
    unfold giou_val
    rw [h, sub_self, divide_no_nan_zero_num, sub_zero]

/-- Witness for C2 at a concrete pair with `enclose_area = union_area`:
two identical unit boxes. -/
theorem giou_le_iou_witness :
    giou_val ⟨0, 0, 1, 1⟩ ⟨0, 0, 1, 1⟩ ≤ iou_val ⟨0, 0, 1, 1⟩ ⟨0, 0, 1, 1⟩ ∧
    giou_val ⟨0, 0, 1, 1⟩ ⟨0, 0, 1, 1⟩ = iou_val ⟨0, 0, 1, 1⟩ ⟨0, 0, 1, 1⟩ :=
  ⟨(giou_le_iou ⟨0, 0, 1, 1⟩ ⟨0, 0, 1, 1⟩).1,
   (giou_le_iou ⟨0, 0, 1, 1⟩ ⟨0, 0, 1, 1⟩).2 (by
     norm_num [enclose_area, enclose_width, enclose_height, union_area,
       intersect_area, intersect_width, intersect_height, box_area, box_width,
       box_height, box_ymin, box_xmin, box_ymax, box_xmax])⟩

/-- C3: for every pair of boxes, the iou score lies in `[0, 1]`. -/
theorem iou_within_unit_interval (b1 b2 : Box) :
    0 ≤ iou_val b1 b2 ∧ iou_val b1 b2 ≤ 1 :=
  ⟨divide_no_nan_nonneg (intersect_area_nonneg b1 b2) (union_area_nonneg b1 b2),
   divide_no_nan_le_one (intersect_area_nonneg b1 b2) (intersect_area_le_union b1 b2)⟩

/-- C4 counterexample: the giou score is NOT always strictly greater than
`-1`. For the two distinct zero-area boxes `(0,0,0,0)` and `(1,1,1,1)`
the union area is `0`, so `iou = 0`, while the enclosing box has area `1`,
giving `giou = 0 - 1/1 = -1` exactly. -/
theorem giou_attains_neg_one :
    giou_val ⟨0, 0, 0, 0⟩ ⟨1, 1, 1, 1⟩ = -1 := by
  norm_num [giou_val, iou_val, divide_no_nan, enclose_area, enclose_width,
    enclose_height, union_area, intersect_area, intersect_width,
    intersect_height, box_area, box_width, box_height, box_ymin, box_xmin,
    box_ymax, box_xmax]

/-- C4 amended: for every pair of boxes the giou score lies in the CLOSED
interval `[-1, 1]` (the lower endpoint `-1` is attained, e.g. by two
distinct zero-area boxes), and the iou score lies in `[0, 1]`. -/
theorem score_ranges (b1 b2 : Box) :
    -1 ≤ giou_val b1 b2 ∧ giou_val b1 b2 ≤ 1 ∧
    0 ≤ iou_val b1 b2 ∧ iou_val b1 b2 ≤ 1 := by
  have hiou0 : 0 ≤ iou_val b1 b2 :=
    divide_no_nan_nonneg (intersect_area_nonneg b1 b2) (union_area_nonneg b1 b2)
  have hiou1 : iou_val b1 b2 ≤ 1 :=
    divide_no_nan_le_one (intersect_area_nonneg b1 b2) (intersect_area_le_union b1 b2)
  have hpen0 : 0 ≤ divide_no_nan (enclose_area b1 b2 - union_area b1 b2) (enclose_area b1 b2) :=
    divide_no_nan_nonneg (sub_nonneg.mpr (union_area_le_enclose b1 b2))
      (enclose_area_nonneg b1 b2)
  have hpen1 : divide_no_nan (enclose_area b1 b2 - union_area b1 b2) (enclose_area b1 b2) ≤ 1 :=
    divide_no_nan_le_one (sub_nonneg.mpr (union_area_le_enclose b1 b2))
      (by have := union_area_nonneg b1 b2; linarith)
  refine ⟨?_, ?_, hiou0, hiou1⟩ <;> unfold giou_val <;> linarith

/-- C5: both divisions are guarded: a zero union area forces `iou = 0`,
a zero enclosing area forces the giou penalty term to vanish (so `giou`
equals `iou` there), and a zero-area first box forces `iou = 0`. -/
theorem safe_division_guards (b1 b2 : Box) :
    (union_area b1 b2 = 0 → iou_val b1 b2 = 0) ∧
    (enclose_area b1 b2 = 0 → giou_val b1 b2 = iou_val b1 b2) ∧
    (box_area b1 = 0 → iou_val b1 b2 = 0) := by
  refine ⟨?_, ?_, ?_⟩
  · intro h
    unfold iou_val
    rw [h, divide_no_nan_zero_den]
  · intro h
    unfold giou_val
    rw [h, divide_no_nan_zero_den, sub_zero]
  · intro h
    have hle := intersect_area_le_left b1 b2
    have hge := intersect_area_nonneg b1 b2
    have hz : intersect_area b1 b2 = 0 := le_antisymm (h ▸ hle) hge
    unfold iou_val
    rw [hz, divide_no_nan_zero_num]

/-- Witness for C5: three concrete instantiations. Two distinct zero-area
boxes have union area 0, so `iou = 0`; two coincident zero-area boxes have
enclosing area 0, so `giou = iou`; and a zero-area box against a unit box
gives `iou = 0`. -/
theorem safe_division_guards_witness :
    iou_val ⟨0, 0, 0, 0⟩ ⟨1, 1, 1, 1⟩ = 0 ∧
    giou_val ⟨2, 2, 2, 2⟩ ⟨2, 2, 2, 2⟩ = iou_val ⟨2, 2, 2, 2⟩ ⟨2, 2, 2, 2⟩ ∧
    iou_val ⟨3, 3, 3, 3⟩ ⟨0, 0, 1, 1⟩ = 0 :=
  ⟨(safe_division_guards ⟨0, 0, 0, 0⟩ ⟨1, 1, 1, 1⟩).1 (by
      norm_num [union_area, intersect_area, intersect_width, intersect_height,
        box_area, box_width, box_height, box_ymin, box_xmin, box_ymax, box_xmax]),
   (safe_division_guards ⟨2, 2, 2, 2⟩ ⟨2, 2, 2, 2⟩).2.1 (by
      norm_num [enclose_area, enclose_width, enclose_height,
        box_ymin, box_xmin, box_ymax, box_xmax]),
   (safe_division_guards ⟨3, 3, 3, 3⟩ ⟨0, 0, 1, 1⟩).2.2 (by
      norm_num [box_area, box_width, box_height, box_ymin, box_xmin,
        box_ymax, box_xmax])⟩

/-- C6: `giou_loss` rejects any mode other than `iou` and `giou` with the
`ValueError` message naming the two legal values, before touching the
boxes; for the two legal modes it returns a result. -/
theorem giou_loss_mode_validation (y_true y_pred : List Box) (mode : String) :
    (mode ≠ "giou" ∧ mode ≠ "iou" →
      giou_loss y_true y_pred mode = Except.error modeErrorMessage) ∧
    (mode = "giou" ∨ mode = "iou" →
      ∃ scores, giou_loss y_true y_pred mode = Except.ok scores) := by
  constructor
  · intro h
    unfold giou_loss
    rw [if_pos h]
  · intro h
    refine ⟨List.zipWith (fun t p => 1 - do_giou_calculate p t mode) y_true y_pred, ?_⟩
    unfold giou_loss
    rw [if_neg]
    rcases h with h | h <;> simp [h]

/-- Witness for C6: the unknown mode `xiou` is rejected with the source
error message on a concrete input, and the legal mode `iou` succeeds. -/
theorem giou_loss_mode_validation_witness :
    giou_loss [⟨0, 0, 1, 1⟩] [⟨0, 0, 1, 1⟩] ("xiou") = Except.error modeErrorMessage ∧
    ∃ scores, giou_loss [⟨0, 0, 1, 1⟩] [⟨0, 0, 1, 1⟩] ("iou") = Except.ok scores :=
  ⟨(giou_loss_mode_validation [⟨0, 0, 1, 1⟩] [⟨0, 0, 1, 1⟩] ("xiou")).1
     (by constructor <;> decide),
   (giou_loss_mode_validation [⟨0, 0, 1, 1⟩] [⟨0, 0, 1, 1⟩] ("iou")).2
     (Or.inr rfl)⟩

theorem corner_swap_ymin (b : Box) : box_ymin (corner_swap b) = box_ymin b :=
  min_comm b.c2 b.c0

theorem corner_swap_xmin (b : Box) : box_xmin (corner_swap b) = box_xmin b :=
  min_comm b.c3 b.c1

theorem corner_swap_ymax (b : Box) : box_ymax (corner_swap b) = box_ymax b :=
  max_comm b.c2 b.c0

theorem corner_swap_xmax (b : Box) : box_xmax (corner_swap b) = box_xmax b :=
  max_comm b.c3 b.c1

theorem scores_congr (b1 b1' b2 b2' : Box)
    (h1y : box_ymin b1' = box_ymin b1) (h1x : box_xmin b1' = box_xmin b1)
    (h1Y : box_ymax b1' = box_ymax b1) (h1X : box_xmax b1' = box_xmax b1)
    (h2y : box_ymin b2' = box_ymin b2) (h2x : box_xmin b2' = box_xmin b2)
    (h2Y : box_ymax b2' = box_ymax b2) (h2X : box_xmax b2' = box_xmax b2) :
    iou_val b1' b2' = iou_val b1 b2 ∧ giou_val b1' b2' = giou_val b1 b2 := by
  unfold giou_val iou_val union_area intersect_area intersect_width
    intersect_height enclose_area enclose_width enclose_height box_area
    box_width box_height
  rw [h1y, h1x, h1Y, h1X, h2y, h2x, h2Y, h2X]
  exact ⟨rfl, rfl⟩

/-- C7: coordinate-order invariance: presenting either box with its two
corners swapped, `(c0,c1,c2,c3) ↦ (c2,c3,c0,c1)`, leaves the score of
`do_giou_calculate` unchanged, for every mode. -/
theorem corner_swap_invariance (b1 b2 : Box) (mode : String) :
    do_giou_calculate (corner_swap b1) b2 mode = do_giou_calculate b1 b2 mode ∧
    do_giou_calculate b1 (corner_swap b2) mode = do_giou_calculate b1 b2 mode := by
  have h1 := scores_congr b1 (corner_swap b1) b2 b2
    (corner_swap_ymin b1) (corner_swap_xmin b1) (corner_swap_ymax b1)
    (corner_swap_xmax b1) rfl rfl rfl rfl
  have h2 := scores_congr b1 b1 b2 (corner_swap b2)
    rfl rfl rfl rfl
    (corner_swap_ymin b2) (corner_swap_xmin b2) (corner_swap_ymax b2)
    (corner_swap_xmax b2)
  constructor <;> unfold do_giou_calculate <;> split
  · exact h1.1
  · exact h1.2
  · exact h2.1
  · exact h2.2

/-- C8 counterexample: for the degenerate box `A = (0,0,0,0)` compared
against itself, the code returns `iou(A,A) = 0` and `giou(A,A) = 0`
(per-pair loss `1`), not the claimed score `1` and loss `0`: the union
and enclosing areas are `0`, so both guarded divisions return `0`. -/
theorem identical_degenerate_box_scores :
    do_giou_calculate ⟨0, 0, 0, 0⟩ ⟨0, 0, 0, 0⟩ ("iou") = 0 ∧
    do_giou_calculate ⟨0, 0, 0, 0⟩ ⟨0, 0, 0, 0⟩ ("giou") = 0 ∧
    1 - do_giou_calculate ⟨0, 0, 0, 0⟩ ⟨0, 0, 0, 0⟩ ("giou") = 1 := by
  norm_num [do_giou_calculate_iou_mode, do_giou_calculate_giou_mode, giou_val,
    iou_val, divide_no_nan, enclose_area, enclose_width, enclose_height,
    union_area, intersect_area, intersect_width, intersect_height, box_area,
    box_width, box_height, box_ymin, box_xmin, box_ymax, box_xmax]

theorem intersect_width_self (b : Box) : intersect_width b b = box_width b := by
  unfold intersect_width box_width
  rw [min_self, max_self]

theorem intersect_height_self (b : Box) : intersect_height b b = box_height b := by
  unfold intersect_height box_height
  rw [min_self, max_self]

theorem intersect_area_self (b : Box) : intersect_area b b = box_area b := by
  unfold intersect_area box_area
  rw [intersect_width_self, intersect_height_self]

theorem union_area_self (b : Box) : union_area b b = box_area b := by
  unfold union_area
  rw [intersect_area_self]
  ring

theorem enclose_area_self (b : Box) : enclose_area b b = box_area b := by
  unfold enclose_area enclose_width enclose_height box_area box_width box_height
  rw [min_self, max_self, min_self, max_self]

/-- C8 amended: for every box of NONZERO normalized area compared against
itself, `iou = 1`, `giou = 1` and the per-pair loss `1 - score` is `0`
(for a zero-area box both scores are `0` instead). -/
theorem identical_box_scores (b : Box) (h : box_area b ≠ 0) :
    do_giou_calculate b b ("iou") = 1 ∧
    do_giou_calculate b b ("giou") = 1 ∧
    1 - do_giou_calculate b b ("giou") = 0 := by
  have hiou : iou_val b b = 1 := by
    unfold iou_val
    rw [intersect_area_self, union_area_self]
    unfold divide_no_nan
    rw [if_neg h]
    exact div_self h
  have hgiou : giou_val b b = 1 := by
    unfold giou_val
    rw [enclose_area_self, union_area_self, sub_self, divide_no_nan_zero_num,
      sub_zero, hiou]
  rw [do_giou_calculate_iou_mode, do_giou_calculate_giou_mode, hiou, hgiou]
  norm_num

/-- Witness for C8 amended, at the unit box `(0,0,1,1)` of area 1. -/
theorem identical_box_scores_witness :
    do_giou_calculate ⟨0, 0, 1, 1⟩ ⟨0, 0, 1, 1⟩ ("iou") = 1 ∧
    do_giou_calculate ⟨0, 0, 1, 1⟩ ⟨0, 0, 1, 1⟩ ("giou") = 1 ∧
    1 - do_giou_calculate ⟨0, 0, 1, 1⟩ ⟨0, 0, 1, 1⟩ ("giou") = 0 :=
  identical_box_scores ⟨0, 0, 1, 1⟩ (by
    norm_num [box_area, box_width, box_height, box_ymin, box_xmin,
      box_ymax, box_xmax])

/-- C9 counterexample: the degenerate zero-width boxes `(0,0,1,0)` and
`(2,0,3,0)` are disjoint with a strict gap along y and distinct bounding
boxes, yet `giou = 0` (not strictly negative): the enclosing box is a
zero-width segment, so the guarded penalty division returns `0`. -/
theorem disjoint_degenerate_giou_not_neg :
    min (box_ymax ⟨0, 0, 1, 0⟩) (box_ymax ⟨2, 0, 3, 0⟩)
      < max (box_ymin ⟨0, 0, 1, 0⟩) (box_ymin ⟨2, 0, 3, 0⟩) ∧
    box_ymin (⟨0, 0, 1, 0⟩ : Box) ≠ box_ymin (⟨2, 0, 3, 0⟩ : Box) ∧
    iou_val ⟨0, 0, 1, 0⟩ ⟨2, 0, 3, 0⟩ = 0 ∧
    ¬ giou_val ⟨0, 0, 1, 0⟩ ⟨2, 0, 3, 0⟩ < 0 := by
  norm_num [giou_val, iou_val, divide_no_nan, enclose_area, enclose_width,
    enclose_height, union_area, intersect_area, intersect_width,
    intersect_height, box_area, box_width, box_height, box_ymin, box_xmin,
    box_ymax, box_xmax]

theorem enclose_width_pos_of_area_ne (b1 b2 : Box) (h : enclose_area b1 b2 ≠ 0) :
    0 < enclose_width b1 b2 := by
  rcases (enclose_width_nonneg b1 b2).lt_or_eq with hw | hw
  · exact hw
  · exfalso
    apply h
    unfold enclose_area
    rw [← hw, zero_mul]

theorem enclose_height_pos_of_area_ne (b1 b2 : Box) (h : enclose_area b1 b2 ≠ 0) :
    0 < enclose_height b1 b2 := by
  rcases (enclose_height_nonneg b1 b2).lt_or_eq with hw | hw
  · exact hw
  · exfalso
    apply h
    unfold enclose_area
    rw [← hw, mul_zero]

/-- C9 amended: for boxes whose normalized forms are separated by a strict
gap along one axis, `iou = 0` always, and `giou < 0` strictly provided the
enclosing box has nonzero area (which fails only when both boxes are
degenerate segments on a common line, where `giou = 0`). -/
theorem disjoint_boxes_scores (b1 b2 : Box)
    (hgap : min (box_ymax b1) (box_ymax b2) < max (box_ymin b1) (box_ymin b2) ∨
            min (box_xmax b1) (box_xmax b2) < max (box_xmin b1) (box_xmin b2)) :
    iou_val b1 b2 = 0 ∧ (enclose_area b1 b2 ≠ 0 → giou_val b1 b2 < 0) := by
  have hinter : intersect_area b1 b2 = 0 := by
    rcases hgap with hy | hx
    · have hh : intersect_height b1 b2 = 0 :=
        max_eq_left (le_of_lt (sub_neg.mpr hy))
      unfold intersect_area
      rw [hh, mul_zero]
    · have hw : intersect_width b1 b2 = 0 :=
        max_eq_left (le_of_lt (sub_neg.mpr hx))
      unfold intersect_area
      rw [hw, zero_mul]
  have hiou : iou_val b1 b2 = 0 := by
    unfold iou_val
    rw [hinter, divide_no_nan_zero_num]
  refine ⟨hiou, ?_⟩
  intro hne
  have hEpos : 0 < enclose_area b1 b2 :=
    lt_of_le_of_ne (enclose_area_nonneg b1 b2) (Ne.symm hne)
  have hWpos := enclose_width_pos_of_area_ne b1 b2 hne
  have hHpos := enclose_height_pos_of_area_ne b1 b2 hne
  have hlt : union_area b1 b2 < enclose_area b1 b2 := by
    rcases hgap with hy | hx
    · have hHE : box_height b1 + box_height b2 < enclose_height b1 b2 := by
        have h1 : min (box_ymax b1) (box_ymax b2) + max (box_ymax b1) (box_ymax b2)
            = box_ymax b1 + box_ymax b2 := min_add_max _ _
        have h2 : min (box_ymin b1) (box_ymin b2) + max (box_ymin b1) (box_ymin b2)
            = box_ymin b1 + box_ymin b2 := min_add_max _ _
        rw [box_height_eq, box_height_eq, enclose_height_eq]
        linarith
      have p1 : box_width b1 * box_height b1
          ≤ enclose_width b1 b2 * box_height b1 :=
        mul_le_mul_of_nonneg_right (box_width_le_enclose_left b1 b2)
          (box_height_nonneg b1)
      have p2 : box_width b2 * box_height b2
          ≤ enclose_width b1 b2 * box_height b2 :=
        mul_le_mul_of_nonneg_right (box_width_le_enclose_right b1 b2)
          (box_height_nonneg b2)
      have p3 : enclose_width b1 b2 * (box_height b1 + box_height b2)
          < enclose_width b1 b2 * enclose_height b1 b2 :=
        mul_lt_mul_of_pos_left hHE hWpos
      have e1 : enclose_width b1 b2 * (box_height b1 + box_height b2)
          = enclose_width b1 b2 * box_height b1
            + enclose_width b1 b2 * box_height b2 := mul_add _ _ _
      unfold union_area enclose_area box_area
      rw [hinter]
      linarith
    · have hWE : box_width b1 + box_width b2 < enclose_width b1 b2 := by
        have h1 : min (box_xmax b1) (box_xmax b2) + max (box_xmax b1) (box_xmax b2)
            = box_xmax b1 + box_xmax b2 := min_add_max _ _
        have h2 : min (box_xmin b1) (box_xmin b2) + max (box_xmin b1) (box_xmin b2)
            = box_xmin b1 + box_xmin b2 := min_add_max _ _
        rw [box_width_eq, box_width_eq, enclose_width_eq]
        linarith
      have p1 : box_width b1 * box_height b1
          ≤ box_width b1 * enclose_height b1 b2 :=
        mul_le_mul_of_nonneg_left (box_height_le_enclose_left b1 b2)
          (box_width_nonneg b1)
      have p2 : box_width b2 * box_height b2
          ≤ box_width b2 * enclose_height b1 b2 :=
        mul_le_mul_of_nonneg_left (box_height_le_enclose_right b1 b2)
          (box_width_nonneg b2)
      have p3 : (box_width b1 + box_width b2) * enclose_height b1 b2
          < enclose_width b1 b2 * enclose_height b1 b2 :=
        mul_lt_mul_of_pos_right hWE hHpos
      have e1 : (box_width b1 + box_width b2) * enclose_height b1 b2
          = box_width b1 * enclose_height b1 b2
            + box_width b2 * enclose_height b1 b2 := add_mul _ _ _
      unfold union_area enclose_area box_area
      rw [hinter]
      linarith
  have hpen : 0 < divide_no_nan (enclose_area b1 b2 - union_area b1 b2)
      (enclose_area b1 b2) :=
    divide_no_nan_pos (by linarith) hEpos
  unfold giou_val
  rw [hiou]
  linarith

/-- Witness for C9 amended: unit boxes `(0,0,1,1)` and `(2,2,3,3)` with a
strict y-gap and enclosing area 9: `iou = 0` and `giou < 0`. -/
theorem disjoint_boxes_scores_witness :
    iou_val ⟨0, 0, 1, 1⟩ ⟨2, 2, 3, 3⟩ = 0 ∧
    giou_val ⟨0, 0, 1, 1⟩ ⟨2, 2, 3, 3⟩ < 0 := by
  have h := disjoint_boxes_scores ⟨0, 0, 1, 1⟩ ⟨2, 2, 3, 3⟩
    (Or.inl (by norm_num [box_ymax, box_ymin]))
  exact ⟨h.1, h.2 (by
    norm_num [enclose_area, enclose_width, enclose_height, box_ymin, box_xmin,
      box_ymax, box_xmax])⟩

theorem intersect_width_comm (b1 b2 : Box) :
    intersect_width b1 b2 = intersect_width b2 b1 := by
  unfold intersect_width
  rw [min_comm (box_xmax b1), max_comm (box_xmin b1)]

theorem intersect_height_comm (b1 b2 : Box) :
    intersect_height b1 b2 = intersect_height b2 b1 := by
  unfold intersect_height
  rw [min_comm (box_ymax b1), max_comm (box_ymin b1)]

theorem intersect_area_comm (b1 b2 : Box) :
    intersect_area b1 b2 = intersect_area b2 b1 := by
  unfold intersect_area
  rw [intersect_width_comm, intersect_height_comm]

theorem union_area_comm (b1 b2 : Box) :
    union_area b1 b2 = union_area b2 b1 := by
  unfold union_area
  rw [intersect_area_comm]
  ring

theorem iou_val_comm (b1 b2 : Box) : iou_val b1 b2 = iou_val b2 b1 := by
  unfold iou_val
  rw [intersect_area_comm, union_area_comm]

theorem enclose_width_comm (b1 b2 : Box) :
    enclose_width b1 b2 = enclose_width b2 b1 := by
  unfold enclose_width
  rw [max_comm (box_xmax b1), min_comm (box_xmin b1)]

theorem enclose_height_comm (b1 b2 : Box) :
    enclose_height b1 b2 = enclose_height b2 b1 := by
  unfold enclose_height
  rw [max_comm (box_ymax b1), min_comm (box_ymin b1)]

theorem enclose_area_comm (b1 b2 : Box) :
    enclose_area b1 b2 = enclose_area b2 b1 := by
  unfold enclose_area
  rw [enclose_width_comm, enclose_height_comm]

theorem giou_val_comm (b1 b2 : Box) : giou_val b1 b2 = giou_val b2 b1 := by
  unfold giou_val
  rw [iou_val_comm, union_area_comm, enclose_area_comm]

theorem do_giou_calculate_comm (b1 b2 : Box) (mode : String) :
    do_giou_calculate b1 b2 mode = do_giou_calculate b2 b1 mode := by
  unfold do_giou_calculate
  split
  · exact iou_val_comm b1 b2
  · exact giou_val_comm b1 b2

/-- C10: symmetry: swapping the two boxes never changes the score of
`do_giou_calculate`, and swapping the roles of the true and predicted
batches never changes the result of `giou_loss`, for every mode. -/
theorem giou_loss_symmetric (y_true y_pred : List Box) (b1 b2 : Box) (mode : String) :
    do_giou_calculate b1 b2 mode = do_giou_calculate b2 b1 mode ∧
    giou_loss y_true y_pred mode = giou_loss y_pred y_true mode := by
  refine ⟨do_giou_calculate_comm b1 b2 mode, ?_⟩
  unfold giou_loss
  by_cases h : mode ≠ "giou" ∧ mode ≠ "iou"
  · rw [if_pos h, if_pos h]
  · rw [if_neg h, if_neg h]
    exact congrArg Except.ok
      (List.zipWith_comm_of_comm _
        (fun x y => by rw [do_giou_calculate_comm]) y_true y_pred)

end GiouLoss
